import Mathlib

/-!
Shallow embedding of `custom_components/powercalc/__init__.py` (the PowerCalc
Home Assistant integration setup layer) together with spec-modelled pieces for
repository modules that are referenced but not shipped under `src/`
(`const.py`, `common.py`, `sensors/group.py`).

Configuration dictionaries are embedded as a structure of `Option` fields: a
`none` field models a key that is absent from the Python dict, `some v` a key
present with value `v`.  Effects of `async_setup` and friends (persistent
notifications, log lines, task creation, event listeners) are reified as an
explicit effect list, in the order the code performs them.
-/

namespace Powercalc

/-- Lexicographic ordering on dotted numeric versions, embedding the
`AwesomeVersion(HA_VERSION) < AwesomeVersion(MIN_HA_VERSION)` comparison for
plain numeric dotted versions such as `2022.11.0`. -/
def versionLt : List Nat → List Nat → Bool
  | [], [] => false
  | [], _ :: _ => true
  | _ :: _, [] => false
  | a :: as, b :: bs => if a < b then true else if b < a then false else versionLt as bs

/-- Render a dotted numeric version back to a string (for the log/notify
message built with Python f-strings). -/
def versionString (v : List Nat) : String :=
  String.intercalate "." (v.map toString)

/-- Utility-meter cycle types (`METER_TYPES`), per the spec's
daily/weekly/monthly cycles. -/
inductive MeterType
  | daily
  | weekly
  | monthly
  deriving DecidableEq

/-- Energy integration methods (`ENERGY_INTEGRATION_METHODS`). -/
inductive IntegrationMethod
  | leftRiemann
  | trapezoidal
  | rightRiemann
  deriving DecidableEq

/-- Unit prefixes for energy sensors (the `UnitPrefix` enum of `const.py`). -/
inductive UnitPrefixKind
  | kilo
  | mega
  | noPrefix
  deriving DecidableEq

/-- Modelled from the spec: `DOMAIN` of `const.py` (not in src/) is the
integration domain string `powercalc`. -/
def DOMAIN : String := "powercalc"

/-- Modelled from the spec: `DEFAULT_UPDATE_FREQUENCY` of `const.py` (not in
src/) — force-update interval, default 10 minutes, held in seconds. -/
def DEFAULT_UPDATE_FREQUENCY : Nat := 600

/-- Modelled from the spec: `DEFAULT_ENERGY_SENSOR_PRECISION` of `const.py`
(not in src/) — energy sensor decimal precision, default 4. -/
def DEFAULT_ENERGY_SENSOR_PRECISION : Nat := 4

/-- Modelled from the spec: `DEFAULT_POWER_SENSOR_PRECISION` of `const.py`
(not in src/) — power sensor decimal precision, default 2. -/
def DEFAULT_POWER_SENSOR_PRECISION : Nat := 2

/-- Modelled from the spec: `DEFAULT_ENERGY_INTEGRATION_METHOD` of `const.py`
(not in src/) — default integration method is left Riemann. -/
def DEFAULT_ENERGY_INTEGRATION_METHOD : IntegrationMethod := .leftRiemann

/-- Modelled from the spec: `DEFAULT_POWER_NAME_PATTERN` of `const.py` (not in
src/) — naming pattern template containing the entity-name placeholder. -/
def DEFAULT_POWER_NAME_PATTERN : String := "\x7b\x7d power"

/-- Modelled from the spec: `DEFAULT_ENERGY_NAME_PATTERN` of `const.py` (not
in src/). -/
def DEFAULT_ENERGY_NAME_PATTERN : String := "\x7b\x7d energy"

/-- Modelled from the spec: `DEFAULT_ENTITY_CATEGORY` of `const.py` (not in
src/); no claim depends on its concrete value, only on both configuration
paths using the same constant. -/
def DEFAULT_ENTITY_CATEGORY : Option String := none

/-- Modelled from the spec: `DEFAULT_UTILITY_METER_TYPES` of `const.py` (not
in src/) — the daily/weekly/monthly cycles. -/
def DEFAULT_UTILITY_METER_TYPES : List MeterType := [.daily, .weekly, .monthly]

/-- `DEFAULT_OFFSET` of the host's `utility_meter` component:
`timedelta(hours=0)`, held in seconds. -/
def DEFAULT_OFFSET : Int := 0

/-- 28 days in seconds, the bound enforced by the host's `max_28_days`
validator. -/
def max28DaysSeconds : Int := 28 * 24 * 3600

/-- The validated `powercalc` domain configuration dictionary.  A `none`
field models a key absent from the dict. Time periods are in seconds. -/
structure DomainConfig where
  force_update_frequency : Option Nat := none
  power_sensor_naming : Option String := none
  power_sensor_friendly_naming : Option String := none
  power_sensor_category : Option (Option String) := none
  energy_sensor_naming : Option String := none
  energy_sensor_friendly_naming : Option String := none
  energy_sensor_category : Option (Option String) := none
  disable_extended_attributes : Option Bool := none
  enable_autodiscovery : Option Bool := none
  create_energy_sensors : Option Bool := none
  create_utility_meters : Option Bool := none
  utility_meter_tariffs : Option (List String) := none
  utility_meter_types : Option (List MeterType) := none
  utility_meter_offset : Option Int := none
  energy_integration_method : Option IntegrationMethod := none
  energy_sensor_precision : Option Nat := none
  power_sensor_precision : Option Nat := none
  energy_sensor_unit_prefix' : Option UnitPrefixKind := none
  create_domain_groups : Option (List String) := none
  ignore_unavailable_state : Option Bool := none
  deriving DecidableEq

/-- Whether `pat` occurs as a contiguous sublist of the second list. -/
def listIsInfix (pat : List Char) : List Char → Bool
  | [] => pat.isEmpty
  | c :: cs => pat.isPrefixOf (c :: cs) || listIsInfix pat cs

/-- Modelled from the spec: `validate_name_pattern` of `common.py` (not in
src/) accepts a naming pattern template iff it contains the entity-name
placeholder `\x7b\x7d`. -/
def validate_name_pattern (s : String) : Bool :=
  listIsInfix "\x7b\x7d".toList s.toList

/-- Default application of `CONFIG_SCHEMA`'s inner `vol.Schema`: every
`vol.Optional(key, default=...)` marker fills an absent key with its default;
`CONF_POWER_SENSOR_FRIENDLY_NAMING`, `CONF_ENERGY_SENSOR_FRIENDLY_NAMING` and
`CONF_IGNORE_UNAVAILABLE_STATE` are `vol.Optional` without a default and stay
absent when not given. -/
def applySchemaDefaults (c : DomainConfig) : DomainConfig :=
  { force_update_frequency := some (c.force_update_frequency.getD DEFAULT_UPDATE_FREQUENCY)
    power_sensor_naming := some (c.power_sensor_naming.getD DEFAULT_POWER_NAME_PATTERN)
    power_sensor_friendly_naming := c.power_sensor_friendly_naming
    power_sensor_category := some (c.power_sensor_category.getD DEFAULT_ENTITY_CATEGORY)
    energy_sensor_naming := some (c.energy_sensor_naming.getD DEFAULT_ENERGY_NAME_PATTERN)
    energy_sensor_friendly_naming := c.energy_sensor_friendly_naming
    energy_sensor_category := some (c.energy_sensor_category.getD DEFAULT_ENTITY_CATEGORY)
    disable_extended_attributes := some (c.disable_extended_attributes.getD false)
    enable_autodiscovery := some (c.enable_autodiscovery.getD true)
    create_energy_sensors := some (c.create_energy_sensors.getD true)
    create_utility_meters := some (c.create_utility_meters.getD false)
    utility_meter_tariffs := some (c.utility_meter_tariffs.getD [])
    utility_meter_types := some (c.utility_meter_types.getD DEFAULT_UTILITY_METER_TYPES)
    utility_meter_offset := some (c.utility_meter_offset.getD DEFAULT_OFFSET)
    energy_integration_method := some (c.energy_integration_method.getD DEFAULT_ENERGY_INTEGRATION_METHOD)
    energy_sensor_precision := some (c.energy_sensor_precision.getD DEFAULT_ENERGY_SENSOR_PRECISION)
    power_sensor_precision := some (c.power_sensor_precision.getD DEFAULT_POWER_SENSOR_PRECISION)
    energy_sensor_unit_prefix' := some (c.energy_sensor_unit_prefix'.getD UnitPrefixKind.kilo)
    create_domain_groups := some (c.create_domain_groups.getD [])
    ignore_unavailable_state := c.ignore_unavailable_state }

/-- The `CONF_UTILITY_METER_OFFSET` validator chain
`vol.All(cv.time_period, cv.positive_timedelta, max_28_days)`:
`cv.positive_timedelta` rejects negative periods, `max_28_days` rejects
periods over 28 days. -/
def checkOffsetValue (t : Int) : Bool :=
  decide (0 ≤ t) && decide (t ≤ max28DaysSeconds)

def checkOffset : Option Int → Bool
  | some t => checkOffsetValue t
  | none => true

def checkNaming : Option String → Bool
  | some s => validate_name_pattern s
  | none => true

/-- The inner `vol.Schema` of `CONFIG_SCHEMA` applied to a `powercalc` block:
defaults are filled, then the per-key validators run (here the ones that can
reject a well-typed value: the utility-meter offset chain and the naming
pattern checks).  `none` models a raised `vol.Invalid`. -/
def validateConfigSchema (c : DomainConfig) : Option DomainConfig :=
  let d := applySchemaDefaults c
  if checkOffset d.utility_meter_offset
      && checkNaming d.power_sensor_naming
      && checkNaming d.power_sensor_friendly_naming
      && checkNaming d.energy_sensor_naming
      && checkNaming d.energy_sensor_friendly_naming then
    some d
  else
    none

/-- Observable side effects of the setup layer, in program order. -/
inductive Effect
  | notify (notificationId title message : String)
  | logCritical (message : String)
  | logError (message : String)
  | startDiscovery
  | listenOnceStarted
  | loadDomainGroupPlatform (domain : String) (entities : List String) (cfg : DomainConfig)
  deriving DecidableEq

/-- `_notify_message`: creates a persistent notification whose stored id is
`f"\x7bDOMAIN\x7d.\x7bnotification_id\x7d"`. -/
def notifyMessage (notificationId title message : String) : Effect :=
  .notify (DOMAIN ++ "." ++ notificationId) title message

/-- The message built in `async_setup` when the running Home Assistant version
is below `MIN_HA_VERSION` (the double space after "version" is in the
source's f-string). -/
def invVersionMsg (minVersion haVersion : List Nat) : String :=
  "This integration require at least HomeAssistant version  "
    ++ versionString minVersion ++ ", you are running version "
    ++ versionString haVersion
    ++ ". Please upgrade HomeAssistant to continue use this integration."

/-- The hard-coded fallback dictionary of `async_setup`, used when
`config.get(DOMAIN)` is falsy (key absent or empty dict). -/
def fallbackDomainConfig : DomainConfig :=
  { power_sensor_naming := some DEFAULT_POWER_NAME_PATTERN
    power_sensor_precision := some DEFAULT_POWER_SENSOR_PRECISION
    power_sensor_category := some DEFAULT_ENTITY_CATEGORY
    energy_integration_method := some DEFAULT_ENERGY_INTEGRATION_METHOD
    energy_sensor_naming := some DEFAULT_ENERGY_NAME_PATTERN
    energy_sensor_precision := some DEFAULT_ENERGY_SENSOR_PRECISION
    energy_sensor_category := some DEFAULT_ENTITY_CATEGORY
    energy_sensor_unit_prefix' := some UnitPrefixKind.kilo
    force_update_frequency := some DEFAULT_UPDATE_FREQUENCY
    disable_extended_attributes := some false
    ignore_unavailable_state := some false
    create_domain_groups := some []
    create_energy_sensors := some true
    create_utility_meters := some false
    enable_autodiscovery := some true
    utility_meter_offset := some DEFAULT_OFFSET
    utility_meter_types := some DEFAULT_UTILITY_METER_TYPES }

/-- The top-level configuration passed to `async_setup` (`config`), of which
only the `powercalc` key is read (`extra=vol.ALLOW_EXTRA`). -/
structure GlobalConfig where
  powercalc : Option DomainConfig := none
  deriving DecidableEq

/-- `hass.data[DOMAIN]` as populated by `async_setup`. -/
structure HassData where
  domainConfig : DomainConfig
  configuredEntities : List (String × List String) := []
  domainEntities : List (String × List String) := []
  discoveredEntities : List (String × List String) := []
  usedUniqueIds : List String := []
  deriving DecidableEq

structure SetupResult where
  ok : Bool
  effects : List Effect
  data : Option HassData
  deriving DecidableEq

/-- `async_setup`.  The running and minimum Home Assistant versions
(`HA_VERSION`, `MIN_HA_VERSION`) are module-level constants in the source and
appear here as parameters. -/
def asyncSetup (haVersion minHaVersion : List Nat) (config : GlobalConfig) : SetupResult :=
  if versionLt haVersion minHaVersion then
    let msg := invVersionMsg minHaVersion haVersion
    { ok := false
      effects := [notifyMessage "inv_ha_version" "PowerCalc" msg, .logCritical msg]
      data := none }
  else
    let domainConfig :=
      match config.powercalc with
      | some c => if c = ({} : DomainConfig) then fallbackDomainConfig else c
      | none => fallbackDomainConfig
    let discoveryEffects :=
      if domainConfig.enable_autodiscovery.getD false then [Effect.startDiscovery] else []
    let groupListenerEffects :=
      if (domainConfig.create_domain_groups.getD []).isEmpty then []
      else [Effect.listenOnceStarted]
    { ok := true
      effects := discoveryEffects ++ groupListenerEffects
      data := some { domainConfig := domainConfig } }

/-- `create_domain_groups`: for each configured domain, a domain missing from
`hass.data[DOMAIN][DATA_DOMAIN_ENTITIES]` yields a logged error and is
skipped (`continue`); otherwise a sensor-platform load task is created for
its entities. -/
def createDomainGroups (domainEntities : List (String × List String))
    (globalConfig : DomainConfig) (domains : List String) : List Effect :=
  domains.map fun d =>
    match domainEntities.lookup d with
    | none => .logError ("Cannot setup group for domain " ++ d ++ ", no entities found")
    | some es => .loadDomainGroupPlatform d es globalConfig

/-- `async_unload_entry`: when the platforms unloaded, the entry's unique id
is removed from `hass.data[DOMAIN][DATA_USED_UNIQUE_IDS]` via `list.remove`
(first occurrence; a raised `ValueError` is caught and `True` returned).  The
result is the returned boolean together with the updated id list. -/
def asyncUnloadEntry (unloadOk : Bool) (usedUniqueIds : List String)
    (uniqueId : Option String) : Bool × List String :=
  if unloadOk then
    match uniqueId with
    | some uid => (true, usedUniqueIds.erase uid)
    | none => (true, usedUniqueIds)
  else
    (false, usedUniqueIds)

/-- Sensor types of config entries (`SensorType` of `const.py`). -/
inductive SensorKind
  | virtualPower
  | group
  | dailyEnergy
  | realPower
  deriving DecidableEq

/-- `ConfigEntryState` of the host; only `loaded` triggers a reload in
`async_remove_entry`. -/
inductive EntryState
  | loaded
  | notLoaded
  | setupError
  | setupRetry
  deriving DecidableEq

/-- A config entry, as read by `async_remove_entry`: its sensor type, its
state, the member power-sensor entry ids (for a group entry) and the
associated group entry ids (for a virtual-power entry). -/
structure ConfigEntry where
  entryId : String
  sensorType : Option SensorKind := none
  state : EntryState := .notLoaded
  memberSensorIds : List String := []
  groupIds : List String := []
  deriving DecidableEq

/-- Modelled from the spec: `remove_power_sensor_from_associated_groups` of
`sensors/group.py` (not in src/) removes the removed virtual-power entry from
the member list of every associated group entry and returns the updated
entries. -/
def remove_power_sensor_from_associated_groups (entries : List ConfigEntry)
    (removed : ConfigEntry) : List ConfigEntry :=
  (entries.filter fun e =>
      e.sensorType == some .group && e.memberSensorIds.contains removed.entryId).map
    fun e => { e with memberSensorIds := e.memberSensorIds.filter (· != removed.entryId) }

/-- Modelled from the spec: `remove_group_from_power_sensor_entry` of
`sensors/group.py` (not in src/) removes the removed group entry's reference
from every member power-sensor entry and returns the updated entries. -/
def remove_group_from_power_sensor_entry (entries : List ConfigEntry)
    (removed : ConfigEntry) : List ConfigEntry :=
  (entries.filter fun e =>
      e.sensorType == some .virtualPower && e.groupIds.contains removed.entryId).map
    fun e => { e with groupIds := e.groupIds.filter (· != removed.entryId) }

structure RemoveResult where
  updatedEntries : List ConfigEntry
  reloadedIds : List String
  deriving DecidableEq

/-- `async_remove_entry`: group membership is updated according to the removed
entry's sensor type, and each updated entry in the `LOADED` state is
reloaded. -/
def asyncRemoveEntry (entries : List ConfigEntry) (removed : ConfigEntry) : RemoveResult :=
  let updated :=
    if removed.sensorType == some SensorKind.virtualPower then
      remove_power_sensor_from_associated_groups entries removed
    else if removed.sensorType == some SensorKind.group then
      remove_group_from_power_sensor_entry entries removed
    else []
  { updatedEntries := updated
    reloadedIds := (updated.filter fun e => e.state == .loaded).map (·.entryId) }

/-- A power sample: a wattage or the distinguished `Unavailable` state. -/
inductive PowerSample
  | unavailable
  | watts (w : ℚ)
  deriving DecidableEq

/-- The wattages of the non-`Unavailable` children. -/
def availableWatts (children : List PowerSample) : List ℚ :=
  children.filterMap fun s =>
    match s with
    | .watts w => some w
    | .unavailable => none

/-- Modelled from the spec: the group sensor value (group sensor code is not
in src/) — the sum of the non-`Unavailable` children's wattages, with the
group itself `Unavailable` exactly when no child contributes a value. -/
def groupValue (children : List PowerSample) : PowerSample :=
  if availableWatts children = [] then .unavailable
  else .watts (availableWatts children).sum

/-! ## Theorems -/

/-- C1: if the running Home Assistant version is below the configured minimum,
`async_setup` returns `False` (so no sensors load) and notifies the user
exactly once, via a persistent notification whose id is the fixed string
`powercalc.inv_ha_version`, independent of the versions and of the
configuration, so repeated restarts reuse the same deduplicated
notification. -/
theorem asyncSetup_version_abort (haV minV : List Nat) (config : GlobalConfig)
    (h : versionLt haV minV = true) :
    (asyncSetup haV minV config).ok = false ∧
    (asyncSetup haV minV config).effects =
      [Effect.notify "powercalc.inv_ha_version" "PowerCalc" (invVersionMsg minV haV),
       Effect.logCritical (invVersionMsg minV haV)] := by
  unfold asyncSetup
  rw [h]
  exact ⟨rfl, rfl⟩

theorem asyncSetup_version_abort_witness :
    (asyncSetup [2022, 10, 0] [2022, 11, 0] {}).ok = false ∧
    (asyncSetup [2022, 10, 0] [2022, 11, 0] {}).effects =
      [Effect.notify "powercalc.inv_ha_version" "PowerCalc"
        (invVersionMsg [2022, 11, 0] [2022, 10, 0]),
       Effect.logCritical (invVersionMsg [2022, 11, 0] [2022, 10, 0])] :=
  asyncSetup_version_abort [2022, 10, 0] [2022, 11, 0] {} (by decide)

/-- C8: when the minimum-version check fails, `async_setup` performs no
initialization: `hass.data` is not populated, no discovery is started, no
start-event listener is registered, and every effect is either the persistent
notification or a log line. -/
theorem asyncSetup_version_no_init (haV minV : List Nat) (config : GlobalConfig)
    (h : versionLt haV minV = true) :
    (asyncSetup haV minV config).data = none ∧
    Effect.startDiscovery ∉ (asyncSetup haV minV config).effects ∧
    Effect.listenOnceStarted ∉ (asyncSetup haV minV config).effects ∧
    ∀ e ∈ (asyncSetup haV minV config).effects,
      (∃ i t m, e = Effect.notify i t m) ∨ (∃ m, e = Effect.logCritical m) := by
  unfold asyncSetup
  rw [h]
  refine ⟨rfl, by simp [notifyMessage], by simp [notifyMessage], ?_⟩
  intro e he
  rcases List.mem_cons.mp he with h1 | h2
  · exact Or.inl ⟨_, _, _, h1⟩
  · exact Or.inr ⟨_, List.mem_singleton.mp h2⟩

theorem asyncSetup_version_no_init_witness :
    (asyncSetup [2022, 10, 0] [2022, 11, 0] {}).data = none ∧
    Effect.startDiscovery ∉ (asyncSetup [2022, 10, 0] [2022, 11, 0] {}).effects ∧
    Effect.listenOnceStarted ∉ (asyncSetup [2022, 10, 0] [2022, 11, 0] {}).effects ∧
    ∀ e ∈ (asyncSetup [2022, 10, 0] [2022, 11, 0] {}).effects,
      (∃ i t m, e = Effect.notify i t m) ∨ (∃ m, e = Effect.logCritical m) :=
  asyncSetup_version_no_init [2022, 10, 0] [2022, 11, 0] {} (by decide)

/-- C4: when the `powercalc` domain block is absent, the configuration stored
by `async_setup` is the fallback dictionary, whose energy sensor decimal
precision is 4, power sensor decimal precision is 2, unit prefix is kilo,
energy integration method is left Riemann, and force-update interval is 10
minutes (600 seconds). -/
theorem asyncSetup_absent_block_defaults (haV minV : List Nat)
    (h : versionLt haV minV = false) :
    ((asyncSetup haV minV {}).data.map fun d => d.domainConfig)
        = some fallbackDomainConfig ∧
    fallbackDomainConfig.energy_sensor_precision = some 4 ∧
    fallbackDomainConfig.power_sensor_precision = some 2 ∧
    fallbackDomainConfig.energy_sensor_unit_prefix' = some UnitPrefixKind.kilo ∧
    fallbackDomainConfig.energy_integration_method = some IntegrationMethod.leftRiemann ∧
    fallbackDomainConfig.force_update_frequency = some 600 := by
  unfold asyncSetup
  rw [h]
  exact ⟨rfl, rfl, rfl, rfl, rfl, rfl⟩

theorem asyncSetup_absent_block_defaults_witness :
    ((asyncSetup [2023, 5, 1] [2022, 11, 0] {}).data.map fun d => d.domainConfig)
        = some fallbackDomainConfig ∧
    fallbackDomainConfig.energy_sensor_precision = some 4 ∧
    fallbackDomainConfig.power_sensor_precision = some 2 ∧
    fallbackDomainConfig.energy_sensor_unit_prefix' = some UnitPrefixKind.kilo ∧
    fallbackDomainConfig.energy_integration_method = some IntegrationMethod.leftRiemann ∧
    fallbackDomainConfig.force_update_frequency = some 600 :=
  asyncSetup_absent_block_defaults [2023, 5, 1] [2022, 11, 0] (by decide)

/-- C2 counterexample: a schema-validated `powercalc` block that never set the
ignore-unavailable key (the validated empty block) is stored by `async_setup`
with the key still absent, not equal to `false`. -/
theorem asyncSetup_ignore_unavailable_cex :
    ((asyncSetup [2024, 1, 0] [2022, 11, 0]
          { powercalc := some (applySchemaDefaults {}) }).data.map
        fun d => d.domainConfig.ignore_unavailable_state)
      ≠ some (some false) := by
  decide

/-- C2 amended: the ignore-unavailable option is set to `false` only by the
fallback dictionary, used when the `powercalc` block is absent or empty; when
the block is present and non-empty, `CONFIG_SCHEMA` supplies no default for it
and `async_setup` stores the block unchanged, so an unset key stays absent
(read back as `None`, which consumers treat as falsy). -/
theorem asyncSetup_ignore_unavailable_default (haV minV : List Nat)
    (h : versionLt haV minV = false) (c : DomainConfig) :
    ((asyncSetup haV minV {}).data.map
        fun d => d.domainConfig.ignore_unavailable_state) = some (some false) ∧
    ((asyncSetup haV minV { powercalc := some c }).data.map
        fun d => d.domainConfig.ignore_unavailable_state)
      = some (if c = ({} : DomainConfig) then some false
              else c.ignore_unavailable_state) := by
  unfold asyncSetup
  rw [h]
  refine ⟨rfl, ?_⟩
  by_cases hc : c = ({} : DomainConfig)
  · simp [hc]
    rfl
  · simp [hc]

theorem asyncSetup_ignore_unavailable_default_witness :
    ((asyncSetup [2024, 1, 0] [2022, 11, 0] {}).data.map
        fun d => d.domainConfig.ignore_unavailable_state) = some (some false) ∧
    ((asyncSetup [2024, 1, 0] [2022, 11, 0]
          { powercalc := some (applySchemaDefaults {}) }).data.map
        fun d => d.domainConfig.ignore_unavailable_state)
      = some (if applySchemaDefaults {} = ({} : DomainConfig) then some false
              else (applySchemaDefaults {}).ignore_unavailable_state) :=
  asyncSetup_ignore_unavailable_default [2024, 1, 0] [2022, 11, 0] (by decide)
    (applySchemaDefaults {})

/-- C9 counterexample: the fallback dictionary of `async_setup` and the
validation of an empty `powercalc` block against `CONFIG_SCHEMA`'s defaults
disagree: the schema defaults the utility-meter tariffs to `[]` while the
fallback omits the key, and the fallback sets ignore-unavailable to `false`
while the schema leaves it absent. -/
theorem fallbackConfig_schema_defaults_cex :
    fallbackDomainConfig.utility_meter_tariffs
        ≠ (applySchemaDefaults {}).utility_meter_tariffs ∧
    fallbackDomainConfig.ignore_unavailable_state
        ≠ (applySchemaDefaults {}).ignore_unavailable_state := by
  decide

/-- C9 amended: the fallback dictionary agrees with the schema-validated empty
block on every configuration option except exactly two: the schema assigns
utility-meter tariffs `[]` where the fallback leaves the key absent, and the
fallback assigns ignore-unavailable `false` where the schema leaves the key
absent. -/
theorem fallbackConfig_schema_defaults_amended :
    applySchemaDefaults {} =
      { fallbackDomainConfig with
          utility_meter_tariffs := some []
          ignore_unavailable_state := none } := by
  decide

theorem checkOffsetValue_eq_true (t : Int) :
    checkOffsetValue t = true ↔ (0 ≤ t ∧ t ≤ max28DaysSeconds) := by
  simp [checkOffsetValue]

/-- C5: the utility-meter offset validator chain accepts exactly the time
periods that are non-negative and at most 28 days: any configuration whose
offset lies outside that range fails `CONFIG_SCHEMA` validation, and a
configuration with an offset inside the range (and otherwise default values)
validates successfully. -/
theorem configSchema_offset_range (t : Int) :
    (∀ c : DomainConfig, c.utility_meter_offset = some t →
        ¬(0 ≤ t ∧ t ≤ max28DaysSeconds) → validateConfigSchema c = none) ∧
    ((validateConfigSchema { utility_meter_offset := some t }).isSome ↔
      (0 ≤ t ∧ t ≤ max28DaysSeconds)) := by
  constructor
  · intro c hc hrange
    have hoff : (applySchemaDefaults c).utility_meter_offset = some t := by
      simp [applySchemaDefaults, hc]
    have hcheck : checkOffset (applySchemaDefaults c).utility_meter_offset = false := by
      rw [hoff]
      show checkOffsetValue t = false
      rw [Bool.eq_false_iff]
      intro hT
      exact hrange ((checkOffsetValue_eq_true t).mp hT)
    simp [validateConfigSchema, hcheck]
  · have hnp : validate_name_pattern DEFAULT_POWER_NAME_PATTERN = true := by decide
    have hne : validate_name_pattern DEFAULT_ENERGY_NAME_PATTERN = true := by decide
    by_cases hr : 0 ≤ t ∧ t ≤ max28DaysSeconds
    · have hcv : checkOffsetValue t = true := (checkOffsetValue_eq_true t).mpr hr
      simp [validateConfigSchema, applySchemaDefaults, checkOffset, checkNaming,
        hcv, hnp, hne, hr]
    · have hcv : checkOffsetValue t = false := by
        rw [Bool.eq_false_iff]
        intro hT
        exact hr ((checkOffsetValue_eq_true t).mp hT)
      simp [validateConfigSchema, applySchemaDefaults, checkOffset, checkNaming,
        hcv, hr]

theorem configSchema_offset_range_witness :
    validateConfigSchema { utility_meter_offset := some (-1) } = none ∧
    ((validateConfigSchema { utility_meter_offset := some 3600 }).isSome ↔
      (0 ≤ (3600 : Int) ∧ (3600 : Int) ≤ max28DaysSeconds)) :=
  ⟨(configSchema_offset_range (-1)).1 { utility_meter_offset := some (-1) } rfl
      (by decide),
   (configSchema_offset_range 3600).2⟩

/-- C3: `create_domain_groups` isolates per-domain failures: every configured
domain without registered entities produces a logged error and is skipped,
and every configured domain with registered entities still gets its group
sensor platform load task, regardless of the other domains in the list. -/
theorem createDomainGroups_isolated (domainEntities : List (String × List String))
    (globalConfig : DomainConfig) (domains : List String) (d : String)
    (hd : d ∈ domains) :
    (domainEntities.lookup d = none →
      Effect.logError ("Cannot setup group for domain " ++ d ++ ", no entities found")
        ∈ createDomainGroups domainEntities globalConfig domains) ∧
    (∀ es, domainEntities.lookup d = some es →
      Effect.loadDomainGroupPlatform d es globalConfig
        ∈ createDomainGroups domainEntities globalConfig domains) := by
  constructor
  · intro h
    refine List.mem_map.mpr ⟨d, hd, ?_⟩
    rw [h]
  · intro es h
    refine List.mem_map.mpr ⟨d, hd, ?_⟩
    rw [h]

theorem createDomainGroups_isolated_witness :
    Effect.logError ("Cannot setup group for domain " ++ "light" ++ ", no entities found")
      ∈ createDomainGroups [("fan", ["sensor.fan"])] fallbackDomainConfig ["light", "fan"] ∧
    Effect.loadDomainGroupPlatform "fan" ["sensor.fan"] fallbackDomainConfig
      ∈ createDomainGroups [("fan", ["sensor.fan"])] fallbackDomainConfig ["light", "fan"] :=
  ⟨(createDomainGroups_isolated [("fan", ["sensor.fan"])] fallbackDomainConfig
        ["light", "fan"] "light" (by decide)).1 (by decide),
   (createDomainGroups_isolated [("fan", ["sensor.fan"])] fallbackDomainConfig
        ["light", "fan"] "fan" (by decide)).2 ["sensor.fan"] (by decide)⟩

/-- C6: `async_remove_entry` updates group membership according to the removed
entry's sensor type — for a virtual-power entry the power sensor is removed
from every associated group entry, for a group entry the group reference is
removed from every member power-sensor entry — and exactly the updated
entries in the `LOADED` state are reloaded. -/
theorem asyncRemoveEntry_spec (entries : List ConfigEntry) (removed : ConfigEntry) :
    (removed.sensorType = some SensorKind.virtualPower →
      (asyncRemoveEntry entries removed).updatedEntries =
        remove_power_sensor_from_associated_groups entries removed) ∧
    (removed.sensorType = some SensorKind.group →
      (asyncRemoveEntry entries removed).updatedEntries =
        remove_group_from_power_sensor_entry entries removed) ∧
    (∀ eid, eid ∈ (asyncRemoveEntry entries removed).reloadedIds ↔
      ∃ e ∈ (asyncRemoveEntry entries removed).updatedEntries,
        e.state = EntryState.loaded ∧ e.entryId = eid) := by
  refine ⟨?_, ?_, ?_⟩
  · intro h
    simp [asyncRemoveEntry, h]
  · intro h
    simp [asyncRemoveEntry, h]
  · intro eid
    simp only [asyncRemoveEntry, List.mem_map, List.mem_filter, beq_iff_eq]
    constructor
    · rintro ⟨e, ⟨he, hst⟩, hid⟩
      exact ⟨e, he, hst, hid⟩
    · rintro ⟨e, he, hst, hid⟩
      exact ⟨e, ⟨he, hst⟩, hid⟩

theorem asyncRemoveEntry_spec_witness :
    ((asyncRemoveEntry
        [{ entryId := "g1", sensorType := some SensorKind.group,
           state := EntryState.loaded, memberSensorIds := ["p1", "p2"] }]
        { entryId := "p1", sensorType := some SensorKind.virtualPower }).updatedEntries =
      remove_power_sensor_from_associated_groups
        [{ entryId := "g1", sensorType := some SensorKind.group,
           state := EntryState.loaded, memberSensorIds := ["p1", "p2"] }]
        { entryId := "p1", sensorType := some SensorKind.virtualPower }) ∧
    ("g1" ∈ (asyncRemoveEntry
        [{ entryId := "g1", sensorType := some SensorKind.group,
           state := EntryState.loaded, memberSensorIds := ["p1", "p2"] }]
        { entryId := "p1", sensorType := some SensorKind.virtualPower }).reloadedIds ↔
      ∃ e ∈ (asyncRemoveEntry
        [{ entryId := "g1", sensorType := some SensorKind.group,
           state := EntryState.loaded, memberSensorIds := ["p1", "p2"] }]
        { entryId := "p1", sensorType := some SensorKind.virtualPower }).updatedEntries,
        e.state = EntryState.loaded ∧ e.entryId = "g1") :=
  ⟨(asyncRemoveEntry_spec
      [{ entryId := "g1", sensorType := some SensorKind.group,
         state := EntryState.loaded, memberSensorIds := ["p1", "p2"] }]
      { entryId := "p1", sensorType := some SensorKind.virtualPower }).1 rfl,
   (asyncRemoveEntry_spec
      [{ entryId := "g1", sensorType := some SensorKind.group,
         state := EntryState.loaded, memberSensorIds := ["p1", "p2"] }]
      { entryId := "p1", sensorType := some SensorKind.virtualPower }).2.2 "g1"⟩

theorem availableWatts_eq_nil (children : List PowerSample) :
    availableWatts children = [] ↔ ∀ s ∈ children, s = PowerSample.unavailable := by
  rw [availableWatts, List.filterMap_eq_nil_iff]
  constructor
  · intro h s hs
    cases s with
    | unavailable => rfl
    | watts w => simpa using h _ hs
  · intro h s hs
    rw [h s hs]

/-- C7: a group sensor's value is the sum of its non-`Unavailable` children's
power values and the group is `Unavailable` if and only if all of its
children are `Unavailable`; in particular children `[50W, Unavailable, 30W]`
yield `80W` and children `[Unavailable, Unavailable]` yield `Unavailable`. -/
theorem groupValue_spec :
    (∀ children, groupValue children = PowerSample.unavailable ↔
      ∀ s ∈ children, s = PowerSample.unavailable) ∧
    groupValue [PowerSample.watts 50, PowerSample.unavailable, PowerSample.watts 30]
      = PowerSample.watts 80 ∧
    groupValue [PowerSample.unavailable, PowerSample.unavailable]
      = PowerSample.unavailable := by
  refine ⟨?_, ?_, ?_⟩
  · intro children
    rcases eq_or_ne (availableWatts children) [] with h | h
    · rw [groupValue, if_pos h]
      exact iff_of_true rfl ((availableWatts_eq_nil children).mp h)
    · rw [groupValue, if_neg h]
      exact iff_of_false (by simp)
        (fun hall => h ((availableWatts_eq_nil children).mpr hall))
  · have h50 : availableWatts
        [PowerSample.watts 50, PowerSample.unavailable, PowerSample.watts 30]
          = [50, 30] := by
      simp [availableWatts]
    rw [groupValue, h50]
    norm_num
    intro h
    simp at h
  · rw [groupValue,
      if_pos ((availableWatts_eq_nil _).mpr (by intro s hs; simpa using hs))]

theorem groupValue_spec_witness :
    groupValue [PowerSample.unavailable] = PowerSample.unavailable ↔
      ∀ s ∈ [PowerSample.unavailable], s = PowerSample.unavailable :=
  groupValue_spec.1 [PowerSample.unavailable]

/-- C10: `async_unload_entry` is tolerant of an absent unique id — whenever
the platforms unload successfully it returns `True` whether or not the id (or
any id at all) is present in the used-unique-ids list, it removes at most one
occurrence of the id, and it leaves the count of every other id unchanged. -/
theorem asyncUnloadEntry_tolerant (ids : List String) (uid : String) :
    (asyncUnloadEntry true ids (some uid)).1 = true ∧
    (asyncUnloadEntry true ids none).1 = true ∧
    (asyncUnloadEntry true ids (some uid)).2.count uid
      = ids.count uid - (if uid ∈ ids then 1 else 0) ∧
    ∀ y, y ≠ uid → (asyncUnloadEntry true ids (some uid)).2.count y = ids.count y := by
  refine ⟨rfl, rfl, ?_, ?_⟩
  · show (ids.erase uid).count uid = ids.count uid - (if uid ∈ ids then 1 else 0)
    rw [List.count_erase_self]
    by_cases hm : uid ∈ ids
    · rw [if_pos hm]
    · rw [if_neg hm, List.count_eq_zero.mpr hm]
  · intro y hy
    show (ids.erase uid).count y = ids.count y
    exact List.count_erase_of_ne hy ids

theorem asyncUnloadEntry_tolerant_witness :
    (asyncUnloadEntry true ["a", "b"] (some "c")).1 = true ∧
    (asyncUnloadEntry true ["a", "b"] (some "b")).2.count "a"
      = (["a", "b"] : List String).count "a" :=
  ⟨(asyncUnloadEntry_tolerant ["a", "b"] "c").1,
   (asyncUnloadEntry_tolerant ["a", "b"] "b").2.2.2 "a" (by decide)⟩

end Powercalc
